import Mathlib

/-!
Shallow embedding of the pushr (notife) CLI configuration / dispatch core:
the ConfigManager and send command in src/config/index.ts, and the platform
formatters in src/platforms/discord.ts and src/platforms/telegram.ts.

Modelling conventions:
- JavaScript values that may be `undefined` are modelled as `Option`.
- JavaScript truthiness on strings (`!s`, `a || b`) is modelled by the
  helpers `optFalsy`, `jsOrStr`, `jsOrOpt`: a string is falsy exactly when
  it is empty, an absent value is falsy.
- The filesystem (`existsSync`) is an abstract predicate `String → Bool`;
  `homedir()` and `process.cwd()` are abstract strings, `join` is modelled
  by string concatenation with a slash.
- `process.env` token/path variables are `Option String` parameters.
- A thrown JavaScript exception is modelled by `Except.error` carrying a
  marker message; code that cannot throw returns plain values.
- Real time (`new Date().toISOString()`) is an injected parameter `now`.
-/

namespace Pushr

/-! ## JavaScript truthiness helpers -/

/-- Truthiness of an optional string: `undefined` and the empty string are
falsy, every other string is truthy. -/
def optFalsy : Option String → Bool
  | none => true
  | some s => decide (s = "")

/-- The expression `x || d` where `x` is an optional string and `d` a string:
yields `d` when `x` is absent or empty. -/
def jsOrStr (x : Option String) (d : String) : String :=
  match x with
  | some s => if s = "" then d else s
  | none => d

/-- The expression `x || y` where both operands are optional strings. -/
def jsOrOpt (x y : Option String) : Option String :=
  match x with
  | some s => if s = "" then y else some s
  | none => y

theorem jsOrOpt_falsy_left (x y : Option String) (h : optFalsy x = true) :
    jsOrOpt x y = y := by
  cases x with
  | none => rfl
  | some s =>
    simp only [optFalsy, decide_eq_true_eq] at h
    simp [jsOrOpt, h]

theorem jsOrStr_falsy (x : Option String) (d : String) (h : optFalsy x = true) :
    jsOrStr x d = d := by
  cases x with
  | none => rfl
  | some s =>
    simp only [optFalsy, decide_eq_true_eq] at h
    simp [jsOrStr, h]

theorem jsOrStr_ne_empty (x : Option String) (d : String) (hd : d ≠ "") :
    jsOrStr x d ≠ "" := by
  cases x with
  | none => exact hd
  | some s =>
    by_cases hs : s = ""
    · simp [jsOrStr, hs]; exact hd
    · simp [jsOrStr, hs]

theorem optFalsy_jsOrOpt (x y : Option String) (hx : optFalsy x = true)
    (hy : optFalsy y = true) : optFalsy (jsOrOpt x y) = true := by
  rw [jsOrOpt_falsy_left x y hx]; exact hy

theorem optFalsy_eq_false (x : Option String) (h : optFalsy x = false) :
    ∃ s, x = some s ∧ s ≠ "" := by
  cases x with
  | none => simp [optFalsy] at h
  | some s =>
    simp only [optFalsy, decide_eq_false_iff_not] at h
    exact ⟨s, rfl, h⟩

/-! ## Data model (interfaces Config, DiscordConfig, TelegramConfig)

The TypeScript interface declares `DiscordConfig.bot` as required, but the
configuration is produced by an unchecked `JSON.parse`, and `validateConfig`
itself tests for a missing `bot` field at runtime; both platform blocks are
therefore modelled with an optional `bot` field. -/

structure BotConfig where
  token : Option String
  channels : Option (List (String × String))
deriving DecidableEq

structure PlatformEntry where
  bot : Option BotConfig
deriving DecidableEq

structure Platforms where
  discord : Option PlatformEntry
  telegram : Option PlatformEntry
deriving DecidableEq

structure Defaults where
  platform : Option String
  channel : Option String
deriving DecidableEq

structure Config where
  platforms : Platforms
  defaults : Defaults
deriving DecidableEq

/-- The default configuration built at the top of loadConfig:
platforms and defaults both empty. -/
def defaultConfig : Config :=
  { platforms := { discord := none, telegram := none },
    defaults := { platform := none, channel := none } }

/-! ## Channel resolver (getDiscordChannel / getTelegramChannel) -/

/-- Property lookup `channels[alias]` on a plain JSON object, modelled as
association-list lookup on own keys. -/
def lookupAlias (channels : List (String × String)) (k : String) : Option String :=
  (channels.find? (fun p => p.1 == k)).map (fun p => p.2)

/-- The test performed by the regular expression `^\d+$`. -/
def discordIdPattern (s : String) : Bool :=
  !s.toList.isEmpty && s.toList.all (fun c => c.isDigit)

/-- The test performed by the regular expression `^-?\d+$`. -/
def telegramIdPattern (s : String) : Bool :=
  match s.toList with
  | '-' :: rest => !rest.isEmpty && rest.all (fun c => c.isDigit)
  | l => !l.isEmpty && l.all (fun c => c.isDigit)

/-- The optional chain `config.platforms.discord?.bot?.channels`. -/
def discordChannels (cfg : Config) : Option (List (String × String)) :=
  (cfg.platforms.discord.bind (fun d => d.bot)).bind (fun b => b.channels)

/-- The optional chain `config.platforms.telegram?.bot?.channels`. -/
def telegramChannels (cfg : Config) : Option (List (String × String)) :=
  (cfg.platforms.telegram.bind (fun t => t.bot)).bind (fun b => b.channels)

/-- ConfigManager.getDiscordChannel. -/
def getDiscordChannel (cfg : Config) (aliasOrId : String) : String :=
  match discordChannels cfg with
  | none => aliasOrId
  | some chans =>
    if discordIdPattern aliasOrId then aliasOrId
    else jsOrStr (lookupAlias chans aliasOrId) aliasOrId

/-- ConfigManager.getTelegramChannel. -/
def getTelegramChannel (cfg : Config) (aliasOrId : String) : String :=
  match telegramChannels cfg with
  | none => aliasOrId
  | some chans =>
    if telegramIdPattern aliasOrId then aliasOrId
    else jsOrStr (lookupAlias chans aliasOrId) aliasOrId

/-- ConfigManager.getDiscordToken: environment variable first, then the
persisted token. -/
def getDiscordToken (cfg : Config) (envDiscordToken : Option String) : Option String :=
  jsOrOpt envDiscordToken ((cfg.platforms.discord.bind (fun d => d.bot)).bind (fun b => b.token))

/-- ConfigManager.getTelegramToken. -/
def getTelegramToken (cfg : Config) (envTelegramToken : Option String) : Option String :=
  jsOrOpt envTelegramToken ((cfg.platforms.telegram.bind (fun t => t.bot)).bind (fun b => b.token))

/-! ## Configuration file resolution (ConfigManager.findConfigFile and the
constructor argument) -/

/-- The for-loop over possiblePaths returning the first existing path. -/
def firstExisting (ex : String → Bool) : List String → Option String
  | [] => none
  | p :: rest => if ex p then some p else firstExisting ex rest

/-- The candidate list assembled in findConfigFile. The source applies
`.filter(Boolean)` to the whole array; only the environment slot can be
absent or empty (the four joined literals are never empty strings), so the
filter is modelled on that slot. -/
def possiblePaths (envPath : Option String) (home cwd : String) : List String :=
  (match envPath with
   | some p => if p = "" then [] else [p]
   | none => []) ++
  [home ++ "/.notife/config.json", cwd ++ "/config.json",
   cwd ++ "/.notife.json", home ++ "/.notife.json"]

/-- ConfigManager.findConfigFile: first existing candidate, defaulting to
the home-directory config path. -/
def findConfigFile (envPath : Option String) (home cwd : String) (ex : String → Bool) : String :=
  match firstExisting ex (possiblePaths envPath home cwd) with
  | some p => p
  | none => home ++ "/.notife/config.json"

/-- The constructor line `this.configPath = configPath || this.findConfigFile()`. -/
def resolveConfigPath (arg envPath : Option String) (home cwd : String)
    (ex : String → Bool) : String :=
  match arg with
  | some a => if a = "" then findConfigFile envPath home cwd ex else a
  | none => findConfigFile envPath home cwd ex

/-- Modelled from the spec words of the claim for comparison with
findConfigFile: candidates are the explicit override environment variable,
then the fixed home-directory config file, then a current-directory config
file, then a home-directory dotfile; the first existing one wins, with the
same default as the source when none exists. -/
def findConfigFileClaimed (envPath : Option String) (home cwd : String)
    (ex : String → Bool) : String :=
  match firstExisting ex
    ((match envPath with
      | some p => if p = "" then [] else [p]
      | none => []) ++
     [home ++ "/.notife/config.json", cwd ++ "/config.json",
      home ++ "/.notife.json"]) with
  | some p => p
  | none => home ++ "/.notife/config.json"

theorem firstExisting_eq_find? (ex : String → Bool) (l : List String) :
    firstExisting ex l = l.find? ex := by
  induction l with
  | nil => rfl
  | cons p rest ih =>
    by_cases hp : ex p = true
    · simp [firstExisting, List.find?, hp]
    · simp only [Bool.not_eq_true] at hp
      simp [firstExisting, List.find?, hp, ih]

/-! ## Configuration loading (ConfigManager.loadConfig)

The filesystem read and `JSON.parse` are external effects; they are
modelled by a flag saying whether the file exists and by the parse outcome
(a parsed partial document, or a thrown parse error). -/

structure ParsedConfig where
  platforms : Option Platforms
  defaults : Option Defaults
deriving DecidableEq

structure LoadResult where
  config : Config
  diagnostic : Option String
deriving DecidableEq

/-- ConfigManager.loadConfig: missing file and parse failure both degrade to
the default configuration with a console diagnostic; a parsed document is
spread-merged over the default (the spread of an absent section leaves the
empty default section). -/
def loadConfig (fileExists : Bool) (path : String)
    (parsed : Except String ParsedConfig) : LoadResult :=
  if !fileExists then
    { config := defaultConfig,
      diagnostic := some ("Config file not found at " ++ path ++ ". Using default configuration.") }
  else
    match parsed with
    | .ok p =>
      { config := { platforms := p.platforms.getD defaultConfig.platforms,
                    defaults := p.defaults.getD defaultConfig.defaults },
        diagnostic := none }
    | .error e =>
      { config := defaultConfig,
        diagnostic := some ("Error loading config file: " ++ e) }

/-! ## Configuration validation (ConfigManager.validateConfig)

The Discord branch evaluates `discord.bot.token` without first guarding
`discord.bot` (the Telegram branch does guard with `telegram.bot &&`), so
when the discord block is present without a bot block the member access
throws; the thrown TypeError is modelled as `Except.error` with a marker
message, and the locally accumulated error list is lost, as in the source. -/

structure VResult where
  valid : Bool
  errors : List String
deriving DecidableEq

/-- The Telegram section of validateConfig; it never throws. -/
def telegramValidationErrors (cfg : Config) (envTelegramToken : Option String) : List String :=
  match cfg.platforms.telegram with
  | none => []
  | some t =>
    (if t.bot = none then ["Telegram platform configured but no bot configuration found"] else []) ++
    (match t.bot with
     | none => []
     | some b =>
       if optFalsy b.token && optFalsy envTelegramToken then
         ["Telegram bot configured but no token provided"]
       else [])

/-- ConfigManager.validateConfig. -/
def validateConfig (cfg : Config) (envDiscordToken envTelegramToken : Option String) :
    Except String VResult :=
  let base :=
    if cfg.platforms.discord = none ∧ cfg.platforms.telegram = none then
      ["No platforms configured"]
    else []
  let discordStep : Except String (List String) :=
    match cfg.platforms.discord with
    | none => .ok base
    | some d =>
      let e := base ++
        (if d.bot = none then ["Discord platform configured but no bot configuration found"] else [])
      match d.bot with
      | none => .error "TypeError: Cannot read properties of undefined (reading token)"
      | some b =>
        .ok (e ++
          (if optFalsy b.token && optFalsy envDiscordToken then
            ["Discord bot configured but no token provided"]
          else []))
  match discordStep with
  | .error e => .error e
  | .ok errs =>
    let all := errs ++ telegramValidationErrors cfg envTelegramToken
    .ok { valid := all.isEmpty, errors := all }

/-! ## Message options (interface MessageOptions in platforms/base.ts) -/

inductive MsgFormat where
  | plain
  | markdown
  | embed
deriving DecidableEq

structure EmbedField where
  name : String
  value : String
  inlineFlag : Option Bool
deriving DecidableEq

structure MessageOptions where
  format : Option MsgFormat
  silent : Option Bool
  title : Option String
  color : Option String
  fields : Option (List EmbedField)
deriving DecidableEq

/-! ## Telegram formatter (TelegramPlatform) -/

/-- The specialChars array of TelegramPlatform.escapeMarkdownV2, in source
order; the backtick and the two braces are written by code point. -/
def specialChars : List Char :=
  ['_', '*', '[', ']', '(', ')', '~', Char.ofNat 96, '>', '#', '+', '-', '=',
   '|', Char.ofNat 123, Char.ofNat 125, '.', '!']

/-- One `escaped.replace(new RegExp(bs + char, g), bs + char)` pass: every
occurrence of the character c is replaced by a backslash followed by c. -/
def replaceAll (s : List Char) (c : Char) : List Char :=
  match s with
  | [] => []
  | x :: rest => (if x = c then ['\\', c] else [x]) ++ replaceAll rest c

/-- TelegramPlatform.escapeMarkdownV2: the replace passes are applied in
sequence, one per special character. -/
def escapeMarkdownV2 (text : String) : String :=
  String.mk (specialChars.foldl replaceAll text.toList)

/-- Modelled from the spec words of the claim for comparison with
escapeMarkdownV2: each occurrence of a character of cs is prefixed with a
single backslash and every other character is left unchanged. -/
def escCS (cs : List Char) : List Char → List Char
  | [] => []
  | x :: rest => (if x ∈ cs then ['\\', x] else [x]) ++ escCS cs rest

/-- The JavaScript `split` on the literal bar separator: a string with no
separator yields a single part, trailing separators yield empty parts. -/
def splitOnPipe : List Char → List (List Char)
  | [] => [[]]
  | c :: rest =>
    if c = '|' then [] :: splitOnPipe rest
    else
      match splitOnPipe rest with
      | [] => [[c]]
      | h :: t => (c :: h) :: t

/-- `message.split(bar)` returning strings. -/
def jsSplitPipe (s : String) : List String :=
  (splitOnPipe s.toList).map String.mk

/-- TelegramPlatform.formatAsEmbed. -/
def formatAsEmbed (message : String) (options : Option MessageOptions) : String :=
  let parts := jsSplitPipe message
  let title := jsOrStr (jsOrOpt parts[0]? (options.bind (fun o => o.title))) "Notification"
  let description := jsOrStr parts[1]? message
  let base := "*" ++ escapeMarkdownV2 title ++ "*\n\n" ++ escapeMarkdownV2 description
  match options.bind (fun o => o.fields) with
  | some fs =>
    if 0 < fs.length then
      base ++ "\n\n" ++ String.join (fs.map (fun f =>
        "*" ++ escapeMarkdownV2 f.name ++ ":* " ++ escapeMarkdownV2 f.value ++ "\n"))
    else base
  | none => base

/-- The wire payload built by TelegramPlatform.createMessagePayload; the
chat_id is attached later by sendBotMessage. -/
structure TelegramPayload where
  text : String
  disableNotify : Bool
  parseMode : Option String
deriving DecidableEq

/-- TelegramPlatform.createMessagePayload. -/
def createMessagePayload (message : String) (options : Option MessageOptions) : TelegramPayload :=
  let base : TelegramPayload :=
    { text := message,
      disableNotify := (options.bind (fun o => o.silent)).getD false,
      parseMode := none }
  match options.bind (fun o => o.format) with
  | some MsgFormat.markdown =>
    { base with parseMode := some "MarkdownV2", text := escapeMarkdownV2 message }
  | some MsgFormat.embed =>
    { base with parseMode := some "MarkdownV2", text := formatAsEmbed message options }
  | _ => base

/-! ## Discord formatter (DiscordPlatform.createBotPayload) -/

/-- A JavaScript number as produced by parseInt: either NaN or an integer. -/
inductive JsNum where
  | nan
  | int (n : Int)
deriving DecidableEq

/-- Truthiness filter on an optional string, as in `if (parts[2])`. -/
def jsTruthyStr : Option String → Option String
  | some s => if s = "" then none else some s
  | none => none

/-- Hexadecimal digit value, upper or lower case. -/
def hexVal (c : Char) : Option Nat :=
  if '0' ≤ c ∧ c ≤ '9' then some (c.toNat - '0'.toNat)
  else if 'a' ≤ c ∧ c ≤ 'f' then some (c.toNat - 'a'.toNat + 10)
  else if 'A' ≤ c ∧ c ≤ 'F' then some (c.toNat - 'A'.toNat + 10)
  else none

/-- Value of the maximal leading run of hexadecimal digits. -/
def hexPrefixVal : List Char → Nat → Nat
  | [], acc => acc
  | c :: rest, acc =>
    match hexVal c with
    | some v => hexPrefixVal rest (acc * 16 + v)
    | none => acc

/-- JavaScript `parseInt(s, 16)`: skip leading whitespace, take an optional
sign, strip an optional 0x prefix, then parse the maximal run of hex
digits; NaN when no digit follows. -/
def parseIntHex (s : String) : JsNum :=
  let l0 := s.toList.dropWhile (fun c => c.isWhitespace)
  let signNeg : Bool :=
    match l0 with
    | c :: _ => c == '-'
    | [] => false
  let l1 :=
    match l0 with
    | '-' :: rest => rest
    | '+' :: rest => rest
    | l => l
  let l2 :=
    match l1 with
    | '0' :: 'x' :: rest => rest
    | '0' :: 'X' :: rest => rest
    | l => l
  match l2 with
  | [] => .nan
  | c :: _ =>
    match hexVal c with
    | none => .nan
    | some _ =>
      .int (if signNeg then -(hexPrefixVal l2 0 : Int) else (hexPrefixVal l2 0 : Int))

/-- JavaScript `s.replace(hash, empty)`: removes the first occurrence only. -/
def replaceFirstChar (c : Char) : List Char → List Char
  | [] => []
  | x :: rest => if x = c then rest else x :: replaceFirstChar c rest

def replaceFirstHash (s : String) : String :=
  String.mk (replaceFirstChar '#' s.toList)

structure Embed where
  title : String
  description : String
  timestamp : String
  color : Option JsNum
  fields : Option (List EmbedField)
deriving DecidableEq

inductive DiscordPayload where
  | content (text : String)
  | embeds (e : Embed)
deriving DecidableEq

/-- DiscordPlatform.createBotPayload; `now` is the value of
`new Date().toISOString()` at formatting time. -/
def createBotPayload (message : String) (options : Option MessageOptions)
    (now : String) : DiscordPayload :=
  match options with
  | none => .content message
  | some opts =>
    if opts.format = some MsgFormat.embed then
      let parts := jsSplitPipe message
      let color : Option JsNum :=
        match jsTruthyStr parts[2]? with
        | some c => some (parseIntHex (replaceFirstHash c))
        | none =>
          match jsTruthyStr opts.color with
          | some c => some (parseIntHex (replaceFirstHash c))
          | none => none
      .embeds
        { title := jsOrStr parts[0]? "Notification",
          description := jsOrStr parts[1]? message,
          timestamp := now,
          color := color,
          fields := opts.fields }
    else .content message

/-! ## sendMessage prechecks (the code of both sendMessage methods that runs
before the HTTP request) -/

inductive SendPrecheck where
  | noToken (msg : String)
  | invalidChannel (msg : String)
  | proceed (token channelId : String)
deriving DecidableEq

/-- DiscordPlatform.sendMessage up to the sendBotMessage call. -/
def discordSendPrecheck (cfg : Config) (envDiscordToken : Option String)
    (target : String) : SendPrecheck :=
  match getDiscordToken cfg envDiscordToken with
  | none => .noToken "Discord bot token not configured"
  | some t =>
    if t = "" then .noToken "Discord bot token not configured"
    else
      let channelId := getDiscordChannel cfg target
      if channelId = "" then .invalidChannel ("Invalid Discord channel: " ++ target)
      else .proceed t channelId

/-- TelegramPlatform.sendMessage up to the sendBotMessage call. -/
def telegramSendPrecheck (cfg : Config) (envTelegramToken : Option String)
    (target : String) : SendPrecheck :=
  match getTelegramToken cfg envTelegramToken with
  | none => .noToken "Telegram bot token not configured"
  | some t =>
    if t = "" then .noToken "Telegram bot token not configured"
    else
      let channelId := getTelegramChannel cfg target
      if channelId = "" then .invalidChannel ("Invalid Telegram channel: " ++ target)
      else .proceed t channelId

/-! ## Dispatch orchestrator (handleSendCommand / sendToPlatform in the send
command module) -/

structure SendArgs where
  m : String
  discord : Bool
  telegram : Bool
  channelID : Option String
  channel : Option String
  format : Option MsgFormat
  silent : Option Bool
  config : Option String
  dryRun : Bool
deriving DecidableEq

/-- The messageOptions object built by handleSendCommand. -/
def effectiveOptions (args : SendArgs) : MessageOptions :=
  { format := some (args.format.getD MsgFormat.plain),
    silent := some (args.silent.getD false),
    title := none, color := none, fields := none }

/-- The platform list built by handleSendCommand: explicit flags are
additive, otherwise the configured default platform or discord. -/
def selectPlatforms (args : SendArgs) (cfg : Config) : List String :=
  let ps := (if args.discord then ["discord"] else []) ++
            (if args.telegram then ["telegram"] else [])
  if ps.isEmpty then [jsOrStr cfg.defaults.platform "discord"] else ps

/-- What one sendToPlatform call does, up to the point where it would hand
the message to a platform sender: the send constructor marks the only
branch that performs network activity. -/
inductive DispatchOutcome where
  | telegramMissingChannel
  | unsupportedPlatform (name : String)
  | noTarget (platform : String)
  | dryRunPreview (platform target message : String) (options : MessageOptions)
  | send (platform target message : String) (options : MessageOptions)
deriving DecidableEq

/-- sendToPlatform: the switch computes the channel target or returns early
(modelled as Except.error carrying the outcome), then the generic target
check, the dry-run branch, and finally the platform send. -/
def sendToPlatform (platformName : String) (args : SendArgs) (cfg : Config)
    (options : MessageOptions) : DispatchOutcome :=
  let step : Except DispatchOutcome (Option String) :=
    if platformName = "discord" then
      let t1 := jsOrOpt args.channelID args.channel
      .ok (if optFalsy t1 then some (jsOrStr cfg.defaults.channel "general") else t1)
    else if platformName = "telegram" then
      let t1 := jsOrOpt args.channelID args.channel
      let t2 := if optFalsy t1 then cfg.defaults.channel else t1
      if optFalsy t2 then .error .telegramMissingChannel else .ok t2
    else
      .error (.unsupportedPlatform platformName)
  match step with
  | .error o => o
  | .ok t =>
    match t with
    | none => .noTarget platformName
    | some target =>
      if target = "" then .noTarget platformName
      else if args.dryRun then .dryRunPreview platformName target args.m options
      else .send platformName target args.m options

/-- Whether the telegram switch case finds a channel target (the two-step
fallback of sendToPlatform yields a truthy value). -/
def telegramResolvable (args : SendArgs) (cfg : Config) : Bool :=
  let t1 := jsOrOpt args.channelID args.channel
  let t2 := if optFalsy t1 then cfg.defaults.channel else t1
  !(optFalsy t2)

/-- The per-platform loop of handleSendCommand: each selected platform is
dispatched independently, an early return inside sendToPlatform never stops
the iteration. -/
def dispatchAll (args : SendArgs) (cfg : Config) : List DispatchOutcome :=
  (selectPlatforms args cfg).map (fun p => sendToPlatform p args cfg (effectiveOptions args))

inductive RunOutcome where
  | abortedValidation (errors : List String)
  | abortedException (msg : String)
  | dispatched (outcomes : List DispatchOutcome)
deriving DecidableEq

/-- handleSendCommand after the configuration has been loaded: a thrown
validation exception is caught by the surrounding try block and aborts the
run, an invalid result aborts with the accumulated errors, otherwise every
selected platform is dispatched. -/
def handleSendCommand (args : SendArgs) (cfg : Config)
    (envDiscordToken envTelegramToken : Option String) : RunOutcome :=
  match validateConfig cfg envDiscordToken envTelegramToken with
  | .error e => .abortedException e
  | .ok v =>
    if v.valid then .dispatched (dispatchAll args cfg)
    else .abortedValidation v.errors

/-! ## Shared helper lemmas -/

theorem mk_toList (s : String) : String.mk s.toList = s := by
  cases s; rfl

theorem escCS_nil (s : List Char) : escCS [] s = s := by
  induction s with
  | nil => rfl
  | cons x rest ih => simp [escCS, ih]

theorem escCS_append (cs a b : List Char) :
    escCS cs (a ++ b) = escCS cs a ++ escCS cs b := by
  induction a with
  | nil => rfl
  | cons x rest ih => simp [escCS, ih]

theorem escCS_replaceAll (cs : List Char) (c : Char)
    (hb : '\\' ∉ cs) (hc : c ∉ cs) (s : List Char) :
    escCS cs (replaceAll s c) = escCS (c :: cs) s := by
  induction s with
  | nil => rfl
  | cons x rest ih =>
    by_cases hx : x = c
    · subst hx
      simp only [replaceAll, if_pos rfl, escCS_append, ih]
      simp [escCS, hb, hc]
    · simp only [replaceAll, if_neg hx, escCS_append, ih]
      simp only [escCS, escCS_nil, List.append_nil, List.mem_cons]
      have : (x = c ∨ x ∈ cs) ↔ x ∈ cs := by
        constructor
        · rintro (h | h)
          · exact absurd h hx
          · exact h
        · exact Or.inr
      simp [this]

theorem foldl_replaceAll_eq (cs : List Char) (hnd : cs.Nodup) (hb : '\\' ∉ cs) :
    ∀ s, List.foldl replaceAll s cs = escCS cs s := by
  induction cs with
  | nil => intro s; simp [escCS_nil]
  | cons c cs ih =>
    intro s
    have hsplit := List.nodup_cons.mp hnd
    have hb' : '\\' ∉ cs := fun h => hb (List.mem_cons_of_mem _ h)
    rw [List.foldl_cons, ih hsplit.2 hb', escCS_replaceAll cs c hb' hsplit.1]

theorem splitOnPipe_no_pipe (l : List Char) (h : '|' ∉ l) : splitOnPipe l = [l] := by
  induction l with
  | nil => rfl
  | cons c rest ih =>
    have hc : ¬(c = '|') := fun hh => h (hh ▸ List.mem_cons_self c rest)
    have hr : '|' ∉ rest := fun hh => h (List.mem_cons_of_mem _ hh)
    simp [splitOnPipe, hc, ih hr]

theorem jsSplitPipe_no_pipe (s : String) (h : '|' ∉ s.toList) :
    jsSplitPipe s = [s] := by
  unfold jsSplitPipe
  rw [splitOnPipe_no_pipe s.toList h]
  simp [mk_toList]

theorem getDiscordChannel_ne_empty (cfg : Config) (t : String) (h : t ≠ "") :
    getDiscordChannel cfg t ≠ "" := by
  unfold getDiscordChannel
  cases discordChannels cfg with
  | none => exact h
  | some chans =>
    by_cases hp : discordIdPattern t = true
    · simp [hp, h]
    · simp only [Bool.not_eq_true] at hp
      simp only [hp, Bool.false_eq_true, if_false]
      exact jsOrStr_ne_empty _ _ h

theorem getTelegramChannel_ne_empty (cfg : Config) (t : String) (h : t ≠ "") :
    getTelegramChannel cfg t ≠ "" := by
  unfold getTelegramChannel
  cases telegramChannels cfg with
  | none => exact h
  | some chans =>
    by_cases hp : telegramIdPattern t = true
    · simp [hp, h]
    · simp only [Bool.not_eq_true] at hp
      simp only [hp, Bool.false_eq_true, if_false]
      exact jsOrStr_ne_empty _ _ h

theorem jsOrStr_of_some_empty (t : String) :
    jsOrStr (some "") t = t := by simp [jsOrStr]

/-! ## Claim theorems -/

/-- C5: one application of the Telegram markdown formatter escapes exactly
the eighteen reserved punctuation characters by prefixing each occurrence
with a single backslash, leaving all other characters unchanged (the
sequential per-character global replaces amount to the one-pass
characterization escCS), and a markdown-format send applies exactly one
escaping pass to the message. -/
theorem escapeMarkdownV2_single_pass (text : String) (opts : MessageOptions) :
    escapeMarkdownV2 text = String.mk (escCS specialChars text.toList) ∧
    specialChars.length = 18 ∧
    (createMessagePayload text (some { opts with format := some MsgFormat.markdown })).text
      = escapeMarkdownV2 text := by
  refine ⟨?_, rfl, rfl⟩
  unfold escapeMarkdownV2
  rw [foldl_replaceAll_eq specialChars (by decide) (by decide)]

/-- C7: the embed payload for the message Title|Description|#ff0000 has
title Title, description Description, color 16711680 (the hex string with
the hash prefix stripped, parsed as an integer), and the formatting-time
timestamp. -/
theorem createBotPayload_embed_triple (now : String) (opts : MessageOptions) :
    createBotPayload "Title|Description|#ff0000"
        (some { opts with format := some MsgFormat.embed, fields := none }) now
      = .embeds { title := "Title", description := "Description", timestamp := now,
                  color := some (JsNum.int 16711680), fields := none } := by
  rfl

/-- C8: loading returns the empty default configuration both when the file
is missing and when parsing fails, in both cases with a diagnostic and
without a fatal error; the default has empty platforms and defaults. -/
theorem loadConfig_missing_or_malformed (path : String)
    (parsed : Except String ParsedConfig) (e : String) :
    (loadConfig false path parsed).config = defaultConfig ∧
    (loadConfig false path parsed).diagnostic.isSome = true ∧
    (loadConfig true path (.error e)).config = defaultConfig ∧
    (loadConfig true path (.error e)).diagnostic.isSome = true ∧
    defaultConfig.platforms = { discord := none, telegram := none } ∧
    defaultConfig.defaults = { platform := none, channel := none } :=
  ⟨rfl, rfl, rfl, rfl, rfl, rfl⟩

/-- C6: for a non-empty message with no bar separator, both platform embed
formatters use the whole message as title (the first split part) and as
description, so the Notification fallback is not used and the message still
yields a one-field embed. -/
theorem embed_no_separator (message : String) (opts : MessageOptions) (now : String)
    (hne : message ≠ "") (hnp : '|' ∉ message.toList) :
    createBotPayload message
        (some { opts with format := some MsgFormat.embed, color := none, fields := none }) now
      = .embeds { title := message, description := message, timestamp := now,
                  color := none, fields := none } ∧
    formatAsEmbed message (some { opts with title := none, fields := none })
      = "*" ++ escapeMarkdownV2 message ++ "*\n\n" ++ escapeMarkdownV2 message := by
  have hsplit := jsSplitPipe_no_pipe message hnp
  constructor
  · simp only [createBotPayload, hsplit]
    simp [jsOrStr, jsTruthyStr, hne]
  · simp only [formatAsEmbed, hsplit]
    simp [jsOrStr, jsOrOpt, hne]

/-- C6 witness at the concrete input OnlyTitle. -/
theorem embed_no_separator_witness :
    createBotPayload "OnlyTitle"
        (some { format := some MsgFormat.embed, silent := none, title := none,
                color := none, fields := none }) "2024-01-01T00:00:00.000Z"
      = .embeds { title := "OnlyTitle", description := "OnlyTitle",
                  timestamp := "2024-01-01T00:00:00.000Z", color := none, fields := none } ∧
    formatAsEmbed "OnlyTitle"
        (some { format := some MsgFormat.embed, silent := none, title := none,
                color := none, fields := none })
      = "*" ++ escapeMarkdownV2 "OnlyTitle" ++ "*\n\n" ++ escapeMarkdownV2 "OnlyTitle" :=
  embed_no_separator "OnlyTitle"
    { format := some MsgFormat.embed, silent := none, title := none,
      color := none, fields := none }
    "2024-01-01T00:00:00.000Z" (by decide) (by decide)

/-- C10: for a non-empty target both channel resolvers return a non-empty
string (an alias mapped to the empty string resolves to the alias itself),
so the invalid-channel branches of both sendMessage methods are
unreachable. -/
theorem channelResolvers_nonempty (cfg : Config) (envD envT : Option String)
    (target : String) (h : target ≠ "") :
    getDiscordChannel cfg target ≠ "" ∧
    getTelegramChannel cfg target ≠ "" ∧
    (∀ msg, discordSendPrecheck cfg envD target ≠ .invalidChannel msg) ∧
    (∀ msg, telegramSendPrecheck cfg envT target ≠ .invalidChannel msg) ∧
    (∀ chans, discordChannels cfg = some chans → lookupAlias chans target = some "" →
      getDiscordChannel cfg target = target) ∧
    (∀ chans, telegramChannels cfg = some chans → lookupAlias chans target = some "" →
      getTelegramChannel cfg target = target) := by
  refine ⟨getDiscordChannel_ne_empty cfg target h,
          getTelegramChannel_ne_empty cfg target h, ?_, ?_, ?_, ?_⟩
  · intro msg
    unfold discordSendPrecheck
    cases getDiscordToken cfg envD with
    | none => simp
    | some t =>
      by_cases ht : t = ""
      · simp [ht]
      · simp [ht, getDiscordChannel_ne_empty cfg target h]
  · intro msg
    unfold telegramSendPrecheck
    cases getTelegramToken cfg envT with
    | none => simp
    | some t =>
      by_cases ht : t = ""
      · simp [ht]
      · simp [ht, getTelegramChannel_ne_empty cfg target h]
  · intro chans hch hlk
    unfold getDiscordChannel
    rw [hch]
    by_cases hp : discordIdPattern target = true
    · simp [hp]
    · simp only [Bool.not_eq_true] at hp
      simp only [hp, Bool.false_eq_true, if_false, hlk]
      exact jsOrStr_of_some_empty target
  · intro chans hch hlk
    unfold getTelegramChannel
    rw [hch]
    by_cases hp : telegramIdPattern target = true
    · simp [hp]
    · simp only [Bool.not_eq_true] at hp
      simp only [hp, Bool.false_eq_true, if_false, hlk]
      exact jsOrStr_of_some_empty target

/-- C10 witness at a concrete non-empty target. -/
theorem channelResolvers_nonempty_witness :
    getDiscordChannel defaultConfig "alerts" ≠ "" :=
  (channelResolvers_nonempty defaultConfig none none "alerts" (by decide)).1

/-! ## Target-selection helper lemmas for the orchestrator -/

theorem sendToPlatform_discord_fallback (args : SendArgs) (cfg : Config) (o : MessageOptions)
    (hcid : optFalsy args.channelID = true) (hch : optFalsy args.channel = true)
    (hdef : optFalsy cfg.defaults.channel = true) (hdry : args.dryRun = false) :
    sendToPlatform "discord" args cfg o = .send "discord" "general" args.m o := by
  have ht1 : optFalsy (jsOrOpt args.channelID args.channel) = true :=
    optFalsy_jsOrOpt _ _ hcid hch
  simp [sendToPlatform, ht1, jsOrStr_falsy _ _ hdef, hdry]

theorem sendToPlatform_telegram_missing (args : SendArgs) (cfg : Config) (o : MessageOptions)
    (hcid : optFalsy args.channelID = true) (hch : optFalsy args.channel = true)
    (hdef : optFalsy cfg.defaults.channel = true) :
    sendToPlatform "telegram" args cfg o = .telegramMissingChannel := by
  have ht1 : optFalsy (jsOrOpt args.channelID args.channel) = true :=
    optFalsy_jsOrOpt _ _ hcid hch
  simp [sendToPlatform, ht1, hdef]

/-- C4: in one invocation selecting both platforms, with no channel flags
and no configured default channel, Discord falls back to the hardcoded
general channel and is dispatched, while Telegram is reported as a
per-platform missing-channel error and skipped without aborting the
Discord dispatch. -/
theorem dispatch_telegram_skip (args : SendArgs) (cfg : Config)
    (hd : args.discord = true) (ht : args.telegram = true)
    (hcid : optFalsy args.channelID = true) (hch : optFalsy args.channel = true)
    (hdef : optFalsy cfg.defaults.channel = true) (hdry : args.dryRun = false) :
    dispatchAll args cfg
      = [DispatchOutcome.send "discord" "general" args.m (effectiveOptions args),
         DispatchOutcome.telegramMissingChannel] := by
  have hdisc := sendToPlatform_discord_fallback args cfg (effectiveOptions args) hcid hch hdef hdry
  have htel := sendToPlatform_telegram_missing args cfg (effectiveOptions args) hcid hch hdef
  simp [dispatchAll, selectPlatforms, hd, ht, hdisc, htel]

def argsBoth : SendArgs :=
  { m := "msg", discord := true, telegram := true, channelID := none, channel := none,
    format := none, silent := none, config := none, dryRun := false }

/-- C4 witness at a concrete invocation. -/
theorem dispatch_telegram_skip_witness :
    dispatchAll argsBoth defaultConfig
      = [DispatchOutcome.send "discord" "general" "msg" (effectiveOptions argsBoth),
         DispatchOutcome.telegramMissingChannel] :=
  dispatch_telegram_skip argsBoth defaultConfig rfl rfl rfl rfl rfl rfl

/-- C9 amended: with the dry-run flag set, no platform send is ever
reached; Discord always produces a preview with platform, resolved target
and message, and Telegram produces such a preview whenever its channel
target resolves (an unresolvable Telegram channel errors out before the
preview stage, still with no network activity). -/
theorem sendToPlatform_dry_run (platformName : String) (args : SendArgs) (cfg : Config)
    (options : MessageOptions) (h : args.dryRun = true) :
    (∀ pf t m o, sendToPlatform platformName args cfg options ≠ .send pf t m o) ∧
    (platformName = "discord" →
      ∃ t, sendToPlatform platformName args cfg options
        = .dryRunPreview "discord" t args.m options) ∧
    (platformName = "telegram" → telegramResolvable args cfg = true →
      ∃ t, sendToPlatform platformName args cfg options
        = .dryRunPreview "telegram" t args.m options) := by
  by_cases hpd : platformName = "discord"
  · subst hpd
    have hres : ∃ t, sendToPlatform "discord" args cfg options
        = .dryRunPreview "discord" t args.m options := by
      cases ht1 : optFalsy (jsOrOpt args.channelID args.channel) with
      | true =>
        exact ⟨jsOrStr cfg.defaults.channel "general",
          by simp [sendToPlatform, ht1, jsOrStr_ne_empty cfg.defaults.channel "general" (by decide), h]⟩
      | false =>
        obtain ⟨s, hs, hsne⟩ := optFalsy_eq_false _ ht1
        refine ⟨s, ?_⟩
        simp [sendToPlatform, ht1, hs, h]
        simp [optFalsy, hsne]
    obtain ⟨t, hres⟩ := hres
    refine ⟨?_, fun _ => ⟨t, hres⟩, ?_⟩
    · intro pf tg m o
      rw [hres]
      simp
    · intro hh
      exact absurd hh (by decide)
  · by_cases hpt : platformName = "telegram"
    · subst hpt
      cases htr : telegramResolvable args cfg with
      | true =>
        have hfalse : optFalsy (if optFalsy (jsOrOpt args.channelID args.channel) then
            cfg.defaults.channel else jsOrOpt args.channelID args.channel) = false := by
          simpa [telegramResolvable] using htr
        obtain ⟨s, hs, hsne⟩ := optFalsy_eq_false _ hfalse
        have hres : sendToPlatform "telegram" args cfg options
            = .dryRunPreview "telegram" s args.m options := by
          simp [sendToPlatform, hfalse, hs, h]
          simp [optFalsy, hsne]
        refine ⟨?_, ?_, fun _ _ => ⟨s, hres⟩⟩
        · intro pf tg m o
          rw [hres]
          simp
        · intro hh
          exact absurd hh (by decide)
      | false =>
        have htrue : optFalsy (if optFalsy (jsOrOpt args.channelID args.channel) then
            cfg.defaults.channel else jsOrOpt args.channelID args.channel) = true := by
          simpa [telegramResolvable] using htr
        have hres : sendToPlatform "telegram" args cfg options = .telegramMissingChannel := by
          simp [sendToPlatform, htrue]
        refine ⟨?_, ?_, ?_⟩
        · intro pf tg m o
          rw [hres]
          simp
        · intro hh
          exact absurd hh (by decide)
        · intro _ hh
          simp [hh] at htr
          exact absurd hh (by decide)
    · have hres : sendToPlatform platformName args cfg options
          = .unsupportedPlatform platformName := by
        simp [sendToPlatform, hpd, hpt]
      refine ⟨?_, ?_, ?_⟩
      · intro pf tg m o
        rw [hres]
        simp
      · intro hh
        exact absurd hh hpd
      · intro hh _
        exact absurd hh hpt

def argsDryTelegram : SendArgs :=
  { m := "hi", discord := false, telegram := true, channelID := none, channel := none,
    format := none, silent := none, config := none, dryRun := true }

/-- C9 counterexample: a dry-run invocation selecting only Telegram, with
no channel flags and no configured default channel, yields the
missing-channel error outcome, not a dry-run preview, because the channel
check runs before the dry-run branch. -/
theorem dry_run_telegram_no_preview :
    argsDryTelegram.dryRun = true ∧
    selectPlatforms argsDryTelegram defaultConfig = ["telegram"] ∧
    sendToPlatform "telegram" argsDryTelegram defaultConfig (effectiveOptions argsDryTelegram)
      = DispatchOutcome.telegramMissingChannel :=
  ⟨rfl, rfl, rfl⟩

/-- C9 witness: the dry-run theorem applied at a concrete discord
dispatch, showing the platform sender is not invoked. -/
theorem sendToPlatform_dry_run_witness :
    sendToPlatform "discord" argsDryTelegram defaultConfig (effectiveOptions argsDryTelegram)
      ≠ DispatchOutcome.send "discord" "general" "hi" (effectiveOptions argsDryTelegram) :=
  (sendToPlatform_dry_run "discord" argsDryTelegram defaultConfig
      (effectiveOptions argsDryTelegram) rfl).1
    "discord" "general" "hi" (effectiveOptions argsDryTelegram)

/-! ## C2: configuration path resolution -/

def bothDotfiles : String → Bool := fun p =>
  p == "/c/.notife.json" || p == "/h/.notife.json"

/-- C2 counterexample: when exactly the current-directory dotfile and the
home-directory dotfile exist, the source picks the current-directory
dotfile, a candidate the claimed four-step precedence does not contain;
the claimed precedence would pick the home-directory dotfile. -/
theorem findConfigFile_extra_candidate :
    findConfigFile none "/h" "/c" bothDotfiles = "/c/.notife.json" ∧
    findConfigFileClaimed none "/h" "/c" bothDotfiles = "/h/.notife.json" ∧
    ("/c/.notife.json" : String) ≠ "/h/.notife.json" :=
  ⟨by decide, by decide, by decide⟩

/-- C2 amended: a non-empty explicit constructor argument wins outright;
otherwise the first existing path among the environment override, the
home-directory config file, the current-directory config.json, the
current-directory .notife.json dotfile and the home-directory .notife.json
dotfile wins, defaulting to the home-directory config path. -/
theorem resolveConfigPath_precedence (arg envPath : Option String) (home cwd : String)
    (ex : String → Bool) :
    (∀ p, arg = some p → p ≠ "" → resolveConfigPath arg envPath home cwd ex = p) ∧
    ((arg = none ∨ arg = some "") →
      resolveConfigPath arg envPath home cwd ex =
        (((match envPath with
           | some p => if p = "" then [] else [p]
           | none => []) ++
          [home ++ "/.notife/config.json", cwd ++ "/config.json",
           cwd ++ "/.notife.json", home ++ "/.notife.json"]).find? ex).getD
          (home ++ "/.notife/config.json")) := by
  have hfind : findConfigFile envPath home cwd ex =
      ((possiblePaths envPath home cwd).find? ex).getD (home ++ "/.notife/config.json") := by
    unfold findConfigFile
    rw [firstExisting_eq_find?]
    cases (possiblePaths envPath home cwd).find? ex with
    | none => rfl
    | some p => rfl
  constructor
  · intro p hp hne
    subst hp
    simp [resolveConfigPath, hne]
  · rintro (hnone | hempty)
    · subst hnone
      exact hfind
    · subst hempty
      exact hfind

def noFile : String → Bool := fun _ => false

/-- C2 witness: the explicit override argument wins. -/
theorem resolveConfigPath_precedence_witness :
    resolveConfigPath (some "/tmp/override.json") none "/h" "/c" noFile = "/tmp/override.json" :=
  (resolveConfigPath_precedence (some "/tmp/override.json") none "/h" "/c" noFile).1
    "/tmp/override.json" rfl (by decide)

/-! ## C3: channel resolver policy -/

def cfgEmptyAlias : Config :=
  { platforms :=
      { discord := some { bot := some { token := some "tok", channels := some [("a", "")] } },
        telegram := none },
    defaults := { platform := none, channel := none } }

/-- C3 counterexample: the alias a is a key present in the channels mapping
with mapped value the empty string, yet the resolver returns the alias
itself, not the mapped value. -/
theorem getDiscordChannel_empty_alias_value :
    lookupAlias [("a", "")] "a" = some "" ∧
    discordIdPattern "a" = false ∧
    getDiscordChannel cfgEmptyAlias "a" = "a" ∧
    ("a" : String) ≠ "" :=
  ⟨rfl, by decide, by decide, by decide⟩

/-- C3 amended: numeric-pattern inputs pass through unchanged regardless of
the alias table; a present alias resolves to its mapped value when that
value is non-empty; an absent alias, an alias mapped to the empty string,
and any input when no channels table is configured all pass through
unchanged; the resolvers are total functions and never raise. -/
theorem channel_resolution_policy (cfg : Config) (s : String) :
    (discordIdPattern s = true → getDiscordChannel cfg s = s) ∧
    (telegramIdPattern s = true → getTelegramChannel cfg s = s) ∧
    (discordChannels cfg = none → getDiscordChannel cfg s = s) ∧
    (telegramChannels cfg = none → getTelegramChannel cfg s = s) ∧
    (∀ chans v, discordChannels cfg = some chans → discordIdPattern s = false →
      lookupAlias chans s = some v → v ≠ "" → getDiscordChannel cfg s = v) ∧
    (∀ chans v, telegramChannels cfg = some chans → telegramIdPattern s = false →
      lookupAlias chans s = some v → v ≠ "" → getTelegramChannel cfg s = v) ∧
    (∀ chans, discordChannels cfg = some chans →
      (lookupAlias chans s = none ∨ lookupAlias chans s = some "") →
      getDiscordChannel cfg s = s) ∧
    (∀ chans, telegramChannels cfg = some chans →
      (lookupAlias chans s = none ∨ lookupAlias chans s = some "") →
      getTelegramChannel cfg s = s) := by
  refine ⟨?_, ?_, ?_, ?_, ?_, ?_, ?_, ?_⟩
  · intro hp
    unfold getDiscordChannel
    cases discordChannels cfg with
    | none => rfl
    | some chans => simp [hp]
  · intro hp
    unfold getTelegramChannel
    cases telegramChannels cfg with
    | none => rfl
    | some chans => simp [hp]
  · intro hch
    unfold getDiscordChannel
    rw [hch]
  · intro hch
    unfold getTelegramChannel
    rw [hch]
  · intro chans v hch hp hlk hv
    unfold getDiscordChannel
    rw [hch]
    simp [hp, hlk, jsOrStr, hv]
  · intro chans v hch hp hlk hv
    unfold getTelegramChannel
    rw [hch]
    simp [hp, hlk, jsOrStr, hv]
  · intro chans hch hlk
    unfold getDiscordChannel
    rw [hch]
    by_cases hp : discordIdPattern s = true
    · simp [hp]
    · simp only [Bool.not_eq_true] at hp
      rcases hlk with hlk | hlk
      · simp [hp, hlk, jsOrStr]
      · simp [hp, hlk, jsOrStr]
  · intro chans hch hlk
    unfold getTelegramChannel
    rw [hch]
    by_cases hp : telegramIdPattern s = true
    · simp [hp]
    · simp only [Bool.not_eq_true] at hp
      rcases hlk with hlk | hlk
      · simp [hp, hlk, jsOrStr]
      · simp [hp, hlk, jsOrStr]

/-- C3 witness: a numeric identifier passes through unchanged. -/
theorem channel_resolution_policy_witness :
    getDiscordChannel cfgEmptyAlias "123456789" = "123456789" :=
  (channel_resolution_policy cfgEmptyAlias "123456789").1 (by decide)

/-! ## C1: validateConfig aggregation -/

def cfgDiscordNoBot : Config :=
  { platforms := { discord := some { bot := none }, telegram := none },
    defaults := { platform := none, channel := none } }

def argsPlainSend : SendArgs :=
  { m := "hello", discord := true, telegram := false, channelID := none, channel := none,
    format := none, silent := none, config := none, dryRun := false }

/-- C1: contrary to the claim, validateConfig does not return the complete
accumulated error list for every loaded configuration: when the discord
platform block is present without a bot block (a configuration produced by
a loadable document), the unguarded member access discord.bot.token throws,
the locally accumulated missing-bot error is lost, and the run aborts
through the generic exception handler instead of the aggregate validation
report. The parallel telegram branch guards this access, so the claim
matches the evident intent and the discord branch is a slip. -/
theorem validateConfig_discord_missing_bot_throws :
    (loadConfig true "/h/.notife/config.json"
        (.ok { platforms := some { discord := some { bot := none }, telegram := none },
               defaults := none })).config = cfgDiscordNoBot ∧
    validateConfig cfgDiscordNoBot none none
      = .error "TypeError: Cannot read properties of undefined (reading token)" ∧
    handleSendCommand argsPlainSend cfgDiscordNoBot none none
      = .abortedException "TypeError: Cannot read properties of undefined (reading token)" :=
  ⟨rfl, rfl, rfl⟩

end Pushr
